import Mathlib

/-!
Verification of the AI colour detector repository: a shallow embedding of the
classification client (services/geminiService.ts) and of the session
controller (App.tsx), together with theorems settling the specification
claims.  State updates of the React component are modelled as a record of the
five pieces of session data plus the two refs that hold mutable handles
(the video srcObject and the interval id); each operation returns the updated
record together with the list of externally visible events it performs
(stopping a media track, clearing or installing a timer, requesting a stream,
issuing a classification call, playing audio, publishing a status value).
-/

namespace ColorDetector

/-- Session status labels (App.tsx line 5). -/
inductive Status
  | Ready
  | Initializing
  | Detecting
  | Error
  | Stopped
deriving DecidableEq

/-- Facing mode values (App.tsx line 6). -/
inductive FacingMode
  | user
  | environment
deriving DecidableEq

/-- A media track of a camera stream, identified by an id. -/
structure MediaTrack where
  id : Nat
deriving DecidableEq

/-- A media stream as returned by getUserMedia: its list of tracks. -/
structure MediaStream where
  tracks : List MediaTrack
deriving DecidableEq

/-- Externally visible actions of the component, in the order performed. -/
inductive Event
  | trackStop (id : Nat)
  | clearTimer (id : Nat)
  | setStatus (st : Status)
  | getUserMedia (fm : FacingMode)
  | setTimer (id : Nat)
  | classifyCall
  | playAudio (url : String)
deriving DecidableEq

/-- ASCII punctuation (the classic ispunct class, code points 33 to 47, 58 to
64, 91 to 96 and 123 to 126).  This pins down what the specification means by
a punctuation character. -/
def isPunctuation (c : Char) : Bool :=
  let n := c.toNat
  (33 ≤ n && n ≤ 47) || (58 ≤ n && n ≤ 64) || (91 ≤ n && n ≤ 96) ||
    (123 ≤ n && n ≤ 126)

/-- The code points of the character class of the sanitizing regex in
detectColorFromImage (geminiService.ts line 40): full stop, comma, slash,
hash, bang, dollar, percent, caret, ampersand, asterisk, semicolon, colon,
the two curly braces, equals, hyphen, underscore, backtick, tilde and the two
parentheses. -/
def strippedSymbols : List Nat :=
  [46, 44, 47, 35, 33, 36, 37, 94, 38, 42, 59, 58, 123, 125, 61, 45, 95, 96,
   126, 40, 41]

/-- Membership in the sanitizing regex class of geminiService.ts line 40. -/
def isStrippedSymbol (c : Char) : Bool :=
  strippedSymbols.contains c.toNat

/-- The whitespace class removed by the JavaScript String.prototype.trim:
WhiteSpace and LineTerminator code points. -/
def isJsWhitespace (c : Char) : Bool :=
  [9, 10, 11, 12, 13, 32, 160, 5760, 8192, 8193, 8194, 8195, 8196, 8197,
   8198, 8199, 8200, 8201, 8202, 8232, 8233, 8239, 8287, 12288,
   65279].contains c.toNat

/-- JavaScript trim: remove leading and trailing whitespace. -/
def jsTrim (s : String) : String :=
  String.mk (((s.data.dropWhile isJsWhitespace).reverse.dropWhile
    isJsWhitespace).reverse)

/-- JavaScript toLowerCase restricted to the ASCII letters that occur in
colour labels. -/
def jsToLower (s : String) : String :=
  String.mk (s.data.map Char.toLower)

/-- Sanitization performed on the model response (geminiService.ts lines
38 to 40): response.text.trim() followed by a global replacement of the regex
character class with the empty string, which removes exactly the characters
of that class. -/
def sanitizeLabel (text : String) : String :=
  String.mk ((jsTrim text).data.filter (fun c => !(isStrippedSymbol c)))

/-- detectColorFromImage (geminiService.ts lines 16 to 46).  The outcome of
the remote generateContent call is the input: Except.ok carries the response
text, Except.error a thrown error.  On success the trimmed, sanitized label
is returned; the catch block rethrows a fixed error. -/
def detectColorFromImage (response : Except Unit String) : Except String String :=
  match response with
  | Except.ok text => Except.ok (sanitizeLabel text)
  | Except.error _ => Except.error "Failed to get response from AI model."

/-- Module top level of the classification client (geminiService.ts lines
3 to 9): API_KEY is read from the environment; when it is absent (undefined)
or empty, both falsy, an error is thrown before the client is constructed,
so no classification function is ever obtained.  On success the module
yields the classification function. -/
def geminiServiceModule (apiKeyEnv : Option String) :
    Except String (Except Unit String → Except String String) :=
  match apiKeyEnv with
  | none => Except.error "API_KEY environment variable not set"
  | some k =>
      if k = "" then Except.error "API_KEY environment variable not set"
      else Except.ok detectColorFromImage

/-- Whether loading the classification client module succeeds. -/
def moduleLoads (apiKeyEnv : Option String) : Bool :=
  match geminiServiceModule apiKeyEnv with
  | Except.ok _ => true
  | Except.error _ => false

/-- Uppercase hexadecimal digit, as produced by percent encoding. -/
def hexDigit (n : Nat) : Char :=
  if n < 10 then Char.ofNat (48 + n) else Char.ofNat (55 + n)

/-- UTF-8 bytes of a Unicode code point, as lists of byte values. -/
def utf8Bytes (n : Nat) : List Nat :=
  if n < 128 then [n]
  else if n < 2048 then [192 + n / 64, 128 + n % 64]
  else if n < 65536 then [224 + n / 4096, 128 + (n / 64) % 64, 128 + n % 64]
  else [240 + n / 262144, 128 + (n / 4096) % 64, 128 + (n / 64) % 64,
        128 + n % 64]

/-- Characters encodeURIComponent leaves unescaped: ASCII letters, digits,
and the code points of hyphen, underscore, full stop, bang, tilde, asterisk,
apostrophe and the two parentheses. -/
def isUriUnreserved (c : Char) : Bool :=
  let n := c.toNat
  (65 ≤ n && n ≤ 90) || (97 ≤ n && n ≤ 122) || (48 ≤ n && n ≤ 57) ||
    [45, 95, 46, 33, 126, 42, 39, 40, 41].contains n

/-- Percent encoding of one character: each UTF-8 byte becomes a percent
sign followed by two uppercase hex digits. -/
def percentEncodeChar (c : Char) : List Char :=
  List.flatten ((utf8Bytes c.toNat).map
    (fun b => [Char.ofNat 37, hexDigit (b / 16), hexDigit (b % 16)]))

/-- JavaScript encodeURIComponent. -/
def encodeURIComponent (s : String) : String :=
  String.mk (List.flatten (s.data.map
    (fun c => if isUriUnreserved c then [c] else percentEncodeChar c)))

/-- The speech synthesis URL built by speak (App.tsx line 28). -/
def ttsUrl (text : String) : String :=
  "https://translate.google.com/translate_tts?ie=UTF-8&tl=en&client=tw-ob&q="
    ++ encodeURIComponent text

/-- The session data of the component (App.tsx lines 9 to 21): the useState
values plus the two mutable refs that matter to the orchestration, the video
srcObject and the detection interval id. -/
structure AppState where
  isCameraOn : Bool
  facingMode : FacingMode
  status : Status
  detectedColor : String
  isLoading : Bool
  error : Option String
  audioUrl : String
  colorUpdateKey : Nat
  srcObject : Option MediaStream
  detectionInterval : Option Nat
deriving DecidableEq

/-- The values the captureAndDetect callback closes over.  The useCallback at
App.tsx lines 60 to 91 lists [isLoading, detectedColor] as its dependencies:
an invocation of a given callback instance reads the values of isLoading and
detectedColor captured when that instance was created, while the setters it
calls always update the live state. -/
structure CDView where
  isLoading : Bool
  detectedColor : String
deriving DecidableEq

/-- The view a callback created at state s captures. -/
def viewOf (s : AppState) : CDView :=
  { isLoading := s.isLoading, detectedColor := s.detectedColor }

/-- The initial render state (App.tsx lines 9 to 16). -/
def initialState : AppState :=
  { isCameraOn := false
    facingMode := FacingMode.environment
    status := Status.Ready
    detectedColor := ""
    isLoading := false
    error := none
    audioUrl := ""
    colorUpdateKey := 0
    srcObject := none
    detectionInterval := none }

/-- Fixed message of the camera permission failure branch (App.tsx line 111). -/
def cameraDeniedMsg : String :=
  "Camera access denied. Please allow camera permissions in your browser settings."

/-- Fixed message of the unsupported browser branch (App.tsx line 116). -/
def cameraUnsupportedMsg : String :=
  "Camera not supported by this browser."

/-- Fixed message of the classification failure branch (App.tsx line 83). -/
def couldNotDetectMsg : String :=
  "Could not detect color. Please try again."

/-- speak (App.tsx lines 23 to 30): an empty text returns early, otherwise
the audio url state is set to the synthesis URL for the text. -/
def speak (s : AppState) (text : String) : AppState :=
  if text = "" then s else { s with audioUrl := ttsUrl text }

/-- setDetectedColor(color) together with the render effects it triggers.
When the stored value actually changes (React bails out of an update with an
identical value, so nothing re-runs then), the detectedColor effect at
App.tsx lines 40 to 45 calls speak and bumps the animation key, and the
audio effect at lines 33 to 38 reloads and plays the resource when the audio
url changed. -/
def applyDetectedColor (s : AppState) (color : String) : AppState × List Event :=
  if color = s.detectedColor then (s, [])
  else
    let s1 := { s with detectedColor := color }
    if color = "" then (s1, [])
    else
      let s2 := { speak s1 color with colorUpdateKey := s1.colorUpdateKey + 1 }
      if ttsUrl color = s1.audioUrl then (s2, [])
      else (s2, [Event.playAudio (ttsUrl color)])

/-- stopCameraStream (App.tsx lines 48 to 58): when the video has a stream,
every track of it is stopped and the srcObject cleared; when an interval is
installed it is cleared. -/
def stopCameraStream (s : AppState) : AppState × List Event :=
  let p1 :=
    match s.srcObject with
    | some stream =>
        ({ s with srcObject := none },
         stream.tracks.map (fun (t : MediaTrack) => Event.trackStop t.id))
    | none => (s, ([] : List Event))
  match p1.1.detectionInterval with
  | some tid => ({ p1.1 with detectionInterval := none },
                 p1.2 ++ [Event.clearTimer tid])
  | none => (p1.1, p1.2)

/-- captureAndDetect up to the await at App.tsx line 76.  view is the
closure of the invoked callback instance, refsOk whether the video and
canvas refs are populated (line 61), ctxOk whether getContext succeeded
(line 69).  The returned Bool records whether a capture was made and a
remote classification call issued. -/
def captureBegin (view : CDView) (refsOk ctxOk : Bool) (s : AppState) :
    AppState × Bool × List Event :=
  if view.isLoading || !refsOk then (s, false, [])
  else
    let s1 := { s with isLoading := true, status := Status.Detecting }
    if ctxOk then
      (s1, true, [Event.setStatus Status.Detecting, Event.classifyCall])
    else
      ({ s1 with isLoading := false }, false,
       [Event.setStatus Status.Detecting])

/-- The continuation of captureAndDetect after the await (App.tsx lines
76 to 87): a successful result replaces the displayed colour when it is
non-empty and differs case-insensitively from the detectedColor the callback
captured, then the error state is cleared; a thrown error sets the fixed
retry message and the Error status; the finally block clears the loading
flag either way. -/
def captureResume (view : CDView) (result : Except Unit String)
    (s : AppState) : AppState × List Event :=
  match result with
  | Except.ok color =>
      let p :=
        if color ≠ "" ∧ jsToLower color ≠ jsToLower view.detectedColor then
          applyDetectedColor s color
        else (s, [])
      ({ p.1 with error := none, isLoading := false }, p.2)
  | Except.error _ =>
      ({ s with error := some couldNotDetectMsg, status := Status.Error,
                isLoading := false }, [])

/-- One whole run of captureAndDetect (App.tsx lines 60 to 91) in which the
classification call resolves with the given result before anything else
happens. -/
def captureAndDetect (view : CDView) (refsOk ctxOk : Bool)
    (result : Except Unit String) (s : AppState) : AppState × List Event :=
  let b := captureBegin view refsOk ctxOk s
  if b.2.1 then
    let r := captureResume view result b.1
    (r.1, b.2.2 ++ r.2)
  else (b.1, b.2.2)

/-- startCamera (App.tsx lines 93 to 120).  support says whether
navigator.mediaDevices.getUserMedia exists (line 98); gum is the outcome of
the getUserMedia request; newTimerId the id window.setInterval returns.  The
video ref is populated and play() succeeds whenever a stream was granted. -/
def startCamera (support : Bool) (gum : Except Unit MediaStream)
    (newTimerId : Nat) (s : AppState) : AppState × List Event :=
  let p := stopCameraStream s
  let s1 := { p.1 with status := Status.Initializing, error := none }
  if support then
    match gum with
    | Except.ok stream =>
        ({ s1 with srcObject := some stream, status := Status.Detecting,
                   detectionInterval := some newTimerId },
         p.2 ++ [Event.setStatus Status.Initializing,
                 Event.getUserMedia s1.facingMode,
                 Event.setStatus Status.Detecting,
                 Event.setTimer newTimerId])
    | Except.error _ =>
        ({ s1 with error := some cameraDeniedMsg, status := Status.Error,
                   isCameraOn := false },
         p.2 ++ [Event.setStatus Status.Initializing,
                 Event.getUserMedia s1.facingMode,
                 Event.setStatus Status.Error])
  else
    ({ s1 with error := some cameraUnsupportedMsg, status := Status.Error,
               isCameraOn := false },
     p.2 ++ [Event.setStatus Status.Initializing,
             Event.setStatus Status.Error])

/-- Turning the camera on: handleToggleCamera (App.tsx lines 136 to 139)
from the off state sets isCameraOn and clears the displayed colour, then the
[isCameraOn, facingMode] effect (lines 122 to 134) runs the cleanup of the
previous effect (stopCameraStream) and calls startCamera. -/
def activateSession (support : Bool) (gum : Except Unit MediaStream)
    (newTimerId : Nat) (s : AppState) : AppState × List Event :=
  let s0 := { s with isCameraOn := true, detectedColor := "" }
  let p1 := stopCameraStream s0
  let p2 := startCamera support gum newTimerId p1.1
  (p2.1, p1.2 ++ p2.2)

/-- Turning the camera off: handleToggleCamera from the on state, then the
effect cleanup (stopCameraStream) and the effect body else branch
(stopCameraStream; setStatus Stopped). -/
def deactivateSession (s : AppState) : AppState × List Event :=
  let s0 := { s with isCameraOn := false, detectedColor := "" }
  let p1 := stopCameraStream s0
  let p2 := stopCameraStream p1.1
  ({ p2.1 with status := Status.Stopped },
   p1.2 ++ p2.2 ++ [Event.setStatus Status.Stopped])

/-- The toggling of the facing mode in handleSwitchCamera (App.tsx line 143). -/
def toggleFacing : FacingMode → FacingMode
  | FacingMode.user => FacingMode.environment
  | FacingMode.environment => FacingMode.user

/-- handleSwitchCamera (App.tsx lines 141 to 145): only while the camera is
on, the facing mode is toggled, which re-runs the effect: cleanup
(stopCameraStream) then startCamera with the new facing mode. -/
def switchCamera (support : Bool) (gum : Except Unit MediaStream)
    (newTimerId : Nat) (s : AppState) : AppState × List Event :=
  if s.isCameraOn then
    let s0 := { s with facingMode := toggleFacing s.facingMode }
    let p1 := stopCameraStream s0
    let p2 := startCamera support gum newTimerId p1.1
    (p2.1, p1.2 ++ p2.2)
  else (s, [])

/-- Whether an event is a media track stop. -/
def isTrackStop : Event → Bool
  | Event.trackStop _ => true
  | _ => false

/-- Whether an event clears a timer. -/
def isClearTimer : Event → Bool
  | Event.clearTimer _ => true
  | _ => false

/-- Whether an event installs a timer. -/
def isSetTimer : Event → Bool
  | Event.setTimer _ => true
  | _ => false

/-- Whether an event requests a camera stream. -/
def isGetUserMedia : Event → Bool
  | Event.getUserMedia _ => true
  | _ => false

/-- Whether an event plays an audio resource. -/
def isPlayAudio : Event → Bool
  | Event.playAudio _ => true
  | _ => false

/-- The succession of published status values in a trace. -/
def statusTrace (evs : List Event) : List Status :=
  evs.filterMap (fun e =>
    match e with
    | Event.setStatus st => some st
    | _ => none)

/-- Whether a trace contains a given event. -/
def hasEvent (tr : List Event) (e : Event) : Bool :=
  tr.any (fun x => decide (x = e))

/-- The events of a trace that happen strictly before the first camera
stream request. -/
def preRequest (tr : List Event) : List Event :=
  tr.takeWhile (fun e => !(isGetUserMedia e))

/-- A two-track demonstration stream. -/
def demoStream : MediaStream := { tracks := [{ id := 0 }, { id := 1 }] }

/-- A second demonstration stream, granted after a facing mode switch. -/
def demoStream2 : MediaStream := { tracks := [{ id := 2 }] }

/-- A running session: camera on, stream attached, interval 5 installed. -/
def demoOnState : AppState :=
  { initialState with
      isCameraOn := true
      status := Status.Detecting
      srcObject := some demoStream
      detectionInterval := some 5 }

/-- The view captured by the captureAndDetect instance of the activation
render: isLoading is false and detectedColor empty there.  The interval
installed at App.tsx line 107 holds exactly this instance for the whole
session, because the effect at lines 122 to 134 re-runs only when isCameraOn
or facingMode change. -/
def activationView : CDView := { isLoading := false, detectedColor := "" }

/-- The state right after activating a session from the initial state. -/
def demoActivated : AppState :=
  (activateSession true (Except.ok demoStream) 1 initialState).1

/-- The state after the first timer fire started a classification call that
has not yet resolved. -/
def demoFiredOnce : AppState :=
  (captureBegin activationView true true demoActivated).1

/-- A state displaying the colour label Red. -/
def exViewState : AppState := { initialState with detectedColor := "Red" }

/-- A state displaying the colour label Blue. -/
def exBlueState : AppState := { initialState with detectedColor := "Blue" }

/-- Membership survives dropWhile. -/
theorem mem_of_mem_dropWhile {α : Type} (p : α → Bool) (l : List α) (x : α)
    (h : x ∈ l.dropWhile p) : x ∈ l := by
  induction l with
  | nil => simp at h
  | cons a t ih =>
      rw [List.dropWhile_cons] at h
      by_cases hp : p a = true
      · simp only [hp, if_true] at h
        exact List.mem_cons_of_mem _ (ih h)
      · simp only [hp, if_false] at h
        exact h

/-- Every character of the trimmed string occurs in the original string. -/
theorem mem_of_mem_jsTrim (s : String) (c : Char) (h : c ∈ (jsTrim s).data) :
    c ∈ s.data := by
  have h1 : c ∈ ((s.data.dropWhile isJsWhitespace).reverse.dropWhile
      isJsWhitespace).reverse := h
  rw [List.mem_reverse] at h1
  have h2 := mem_of_mem_dropWhile _ _ _ h1
  rw [List.mem_reverse] at h2
  exact mem_of_mem_dropWhile _ _ _ h2

/-- Claim C1 (amended): detectColorFromImage returns the trimmed response
text with every character of the regex class of geminiService.ts line 40
removed; whenever all punctuation characters of the response lie in that
class (as in the response "Blue."), the returned label contains no
punctuation at all.  (The unamended claim, quantified over responses with
arbitrary punctuation, fails: see the counterexample.) -/
theorem detectColor_sanitize_inclass (r : String)
    (h : r.data.all (fun c => !(isPunctuation c) || isStrippedSymbol c) = true) :
    detectColorFromImage (Except.ok r) = Except.ok (sanitizeLabel r)
    ∧ (sanitizeLabel r).data.all (fun c => !(isStrippedSymbol c)) = true
    ∧ (sanitizeLabel r).data.all (fun c => !(isPunctuation c)) = true := by
  refine ⟨rfl, ?_, ?_⟩
  · rw [List.all_eq_true]
    intro c hc
    have h1 : c ∈ (jsTrim r).data.filter (fun c => !(isStrippedSymbol c)) := hc
    rw [List.mem_filter] at h1
    simpa using h1.2
  · rw [List.all_eq_true]
    intro c hc
    have h1 : c ∈ (jsTrim r).data.filter (fun c => !(isStrippedSymbol c)) := hc
    rw [List.mem_filter] at h1
    have hr : c ∈ r.data := mem_of_mem_jsTrim _ _ h1.1
    have h3 := List.all_eq_true.mp h c hr
    have h4 := h1.2
    cases hP : isPunctuation c with
    | false => simp
    | true =>
        simp only [hP, Bool.not_true, Bool.false_or] at h3
        simp [h3] at h4

/-- Witness for the amended claim C1 at the response "Blue.". -/
theorem detectColor_sanitize_inclass_witness :
    detectColorFromImage (Except.ok "Blue.") = Except.ok (sanitizeLabel "Blue.")
    ∧ (sanitizeLabel "Blue.").data.all (fun c => !(isStrippedSymbol c)) = true
    ∧ (sanitizeLabel "Blue.").data.all (fun c => !(isPunctuation c)) = true :=
  detectColor_sanitize_inclass "Blue." (by decide)

/-- Claim C1 counterexample: the response "Dark Blue?" contains punctuation,
yet sanitization returns it unchanged: the question mark lies outside the
stripped class and survives, and the label also keeps the space, so the
returned label is neither free of punctuation nor a single word. -/
theorem detectColor_sanitize_cex :
    sanitizeLabel "Dark Blue?" = "Dark Blue?"
    ∧ "Dark Blue?".data.any (fun c => isPunctuation c) = true
    ∧ (sanitizeLabel "Dark Blue?").data.any (fun c => isPunctuation c) = true
    ∧ (sanitizeLabel "Dark Blue?").data.any (fun c => isJsWhitespace c) = true := by
  decide

/-- Claim C8: with API_KEY absent (or empty, equally falsy) the
classification client module fails at load with the fixed error, and no
classification function is ever obtained. -/
theorem apiKey_absent_fatal :
    geminiServiceModule none
      = Except.error "API_KEY environment variable not set"
    ∧ moduleLoads none = false
    ∧ moduleLoads (some "") = false :=
  ⟨rfl, rfl, by decide⟩

/-- After stopCameraStream no stream is attached. -/
theorem stopCameraStream_srcObject (s : AppState) :
    (stopCameraStream s).1.srcObject = none := by
  cases hS : s.srcObject <;> cases hT : s.detectionInterval <;>
    simp [stopCameraStream, hS, hT]

/-- After stopCameraStream no interval is installed. -/
theorem stopCameraStream_interval (s : AppState) :
    (stopCameraStream s).1.detectionInterval = none := by
  cases hS : s.srcObject <;> cases hT : s.detectionInterval <;>
    simp [stopCameraStream, hS, hT]

/-- On a state with no stream and no interval, stopCameraStream does
nothing. -/
theorem stopCameraStream_cleared (s : AppState) (h1 : s.srcObject = none)
    (h2 : s.detectionInterval = none) : stopCameraStream s = (s, []) := by
  simp [stopCameraStream, h1, h2]

/-- Claim C10: stopCameraStream is idempotent: after one run there is no
stream and no timer, so a second run returns the same state and performs no
event. -/
theorem stopCameraStream_idempotent (s : AppState) :
    stopCameraStream (stopCameraStream s).1 = ((stopCameraStream s).1, []) :=
  stopCameraStream_cleared _ (stopCameraStream_srcObject s)
    (stopCameraStream_interval s)

/-- Claim C2 fails on the code: the interval installed at App.tsx line 107
stores the captureAndDetect instance created for the activation render, and
the effect at lines 122 to 134 re-runs only when isCameraOn or facingMode
change, so later timer fires keep reading the captured isLoading value,
which was false at activation.  Concretely: after activating a session, the
first fire issues a classification call and sets the live loading flag; a
second fire while that call is still pending checks the stale captured flag
and issues a second capture and remote call instead of skipping the cycle.
Only an instance that captured the live state (the last conjunct) would
skip. -/
theorem timerFire_stale_guard_overlap :
    viewOf demoActivated = activationView
    ∧ (captureBegin activationView true true demoActivated).2.1 = true
    ∧ demoFiredOnce.isLoading = true
    ∧ (captureBegin activationView true true demoFiredOnce).2.1 = true
    ∧ (captureBegin (viewOf demoFiredOnce) true true demoFiredOnce).2.1
        = false := by
  decide

/-- Track stop events are release events. -/
theorem trackStops_release (ts : List MediaTrack) :
    (ts.map (fun (t : MediaTrack) => Event.trackStop t.id)).all
      (fun e => isTrackStop e || isClearTimer e) = true := by
  rw [List.all_eq_true]
  intro e he
  rw [List.mem_map] at he
  obtain ⟨t, _, rfl⟩ := he
  rfl

/-- Everything stopCameraStream performs is a track stop or a timer clear. -/
theorem stopCameraStream_events_release (s : AppState) :
    (stopCameraStream s).2.all (fun e => isTrackStop e || isClearTimer e)
      = true := by
  cases hS : s.srcObject <;> cases hT : s.detectionInterval <;>
    simp [stopCameraStream, hS, hT, List.all_append, trackStops_release,
          isTrackStop, isClearTimer]

/-- Release events install no timer. -/
theorem release_not_setTimer (l : List Event)
    (h : l.all (fun e => isTrackStop e || isClearTimer e) = true) :
    l.all (fun e => !(isSetTimer e)) = true := by
  rw [List.all_eq_true] at h ⊢
  intro e he
  have h1 := h e he
  cases e <;> simp_all [isTrackStop, isClearTimer, isSetTimer]

/-- Release events request no stream. -/
theorem release_not_getUserMedia (l : List Event)
    (h : l.all (fun e => isTrackStop e || isClearTimer e) = true) :
    l.all (fun e => !(isGetUserMedia e)) = true := by
  rw [List.all_eq_true] at h ⊢
  intro e he
  have h1 := h e he
  cases e <;> simp_all [isTrackStop, isClearTimer, isGetUserMedia]

/-- Release events publish no status value. -/
theorem release_statusTrace_nil (l : List Event)
    (h : l.all (fun e => isTrackStop e || isClearTimer e) = true) :
    statusTrace l = [] := by
  induction l with
  | nil => rfl
  | cons a t ih =>
      simp only [List.all_cons, Bool.and_eq_true] at h
      cases a <;>
        simp_all [statusTrace, List.filterMap_cons, isTrackStop, isClearTimer]

/-- Concatenation preserves an all-predicate. -/
theorem all_append_concrete (l1 l2 : List Event) (p : Event → Bool)
    (h1 : l1.all p = true) (h2 : l2.all p = true) :
    (l1 ++ l2).all p = true := by
  rw [List.all_append, h1, h2]
  rfl

/-- Claim C3: when camera access fails on activation (no mediaDevices
support, or getUserMedia rejecting), startCamera ends in the Error status
with the fixed message of the failing branch, turns the camera toggle off,
and installs no detection timer. -/
theorem startCamera_failure_leaves_off (support : Bool)
    (gum : Except Unit MediaStream) (tid : Nat) (s : AppState)
    (h : support = false ∨ gum = Except.error ()) :
    (startCamera support gum tid s).1.status = Status.Error
    ∧ (startCamera support gum tid s).1.isCameraOn = false
    ∧ (startCamera support gum tid s).1.error
        = some (if support then cameraDeniedMsg else cameraUnsupportedMsg)
    ∧ (startCamera support gum tid s).1.detectionInterval = none
    ∧ (startCamera support gum tid s).2.all (fun e => !(isSetTimer e))
        = true := by
  have hint := stopCameraStream_interval s
  have hall := release_not_setTimer _ (stopCameraStream_events_release s)
  cases support with
  | false =>
      refine ⟨by simp [startCamera], by simp [startCamera],
              by simp [startCamera], by simp [startCamera, hint], ?_⟩
      exact all_append_concrete _ _ _ hall rfl
  | true =>
      have hg : gum = Except.error () := by
        rcases h with h | h
        · exact absurd h (by simp)
        · exact h
      subst hg
      refine ⟨by simp [startCamera], by simp [startCamera],
              by simp [startCamera], by simp [startCamera, hint], ?_⟩
      exact all_append_concrete _ _ _ hall rfl

/-- Witness for claim C3: permission denied on a supported browser, from the
initial state. -/
theorem startCamera_failure_leaves_off_witness :
    (startCamera true (Except.error ()) 0 initialState).1.status = Status.Error
    ∧ (startCamera true (Except.error ()) 0 initialState).1.isCameraOn = false
    ∧ (startCamera true (Except.error ()) 0 initialState).1.error
        = some (if true then cameraDeniedMsg else cameraUnsupportedMsg)
    ∧ (startCamera true (Except.error ()) 0 initialState).1.detectionInterval
        = none
    ∧ (startCamera true (Except.error ()) 0 initialState).2.all
        (fun e => !(isSetTimer e)) = true :=
  startCamera_failure_leaves_off true (Except.error ()) 0 initialState
    (Or.inr rfl)

/-- Claim C4: when the classification call throws, the cycle ends in the
Error status with the fixed retry message, the loading flag is cleared, and
the recurring interval is neither cleared nor replaced, so the next
scheduled fire still happens. -/
theorem captureAndDetect_error_keeps_timer (view : CDView) (s : AppState)
    (hL : view.isLoading = false) :
    (captureAndDetect view true true (Except.error ()) s).1.status
        = Status.Error
    ∧ (captureAndDetect view true true (Except.error ()) s).1.error
        = some couldNotDetectMsg
    ∧ (captureAndDetect view true true (Except.error ()) s).1.isLoading
        = false
    ∧ (captureAndDetect view true true (Except.error ()) s).1.detectionInterval
        = s.detectionInterval
    ∧ (captureAndDetect view true true (Except.error ()) s).2.all
        (fun e => !(isClearTimer e)) = true := by
  simp [captureAndDetect, captureBegin, captureResume, hL, isClearTimer]

/-- Witness for claim C4 at the activation view and the initial state. -/
theorem captureAndDetect_error_keeps_timer_witness :
    (captureAndDetect activationView true true (Except.error ()) initialState).1.status
        = Status.Error
    ∧ (captureAndDetect activationView true true (Except.error ()) initialState).1.error
        = some couldNotDetectMsg
    ∧ (captureAndDetect activationView true true (Except.error ()) initialState).1.isLoading
        = false
    ∧ (captureAndDetect activationView true true (Except.error ()) initialState).1.detectionInterval
        = initialState.detectionInterval
    ∧ (captureAndDetect activationView true true (Except.error ()) initialState).2.all
        (fun e => !(isClearTimer e)) = true :=
  captureAndDetect_error_keeps_timer activationView initialState rfl

/-- Claim C9: a cycle that resolves with the empty label leaves the
displayed colour, the audio url and the animation key unchanged and plays
nothing. -/
theorem capture_empty_label_no_effect (view : CDView) (s : AppState)
    (hL : view.isLoading = false) :
    (captureAndDetect view true true (Except.ok "") s).1.detectedColor
        = s.detectedColor
    ∧ (captureAndDetect view true true (Except.ok "") s).1.audioUrl
        = s.audioUrl
    ∧ (captureAndDetect view true true (Except.ok "") s).1.colorUpdateKey
        = s.colorUpdateKey
    ∧ (captureAndDetect view true true (Except.ok "") s).2.all
        (fun e => !(isPlayAudio e)) = true := by
  simp [captureAndDetect, captureBegin, captureResume, hL, isPlayAudio]

/-- Witness for claim C9, with a non-empty colour on display. -/
theorem capture_empty_label_no_effect_witness :
    (captureAndDetect (CDView.mk false "Red") true true (Except.ok "") initialState).1.detectedColor
        = initialState.detectedColor
    ∧ (captureAndDetect (CDView.mk false "Red") true true (Except.ok "") initialState).1.audioUrl
        = initialState.audioUrl
    ∧ (captureAndDetect (CDView.mk false "Red") true true (Except.ok "") initialState).1.colorUpdateKey
        = initialState.colorUpdateKey
    ∧ (captureAndDetect (CDView.mk false "Red") true true (Except.ok "") initialState).2.all
        (fun e => !(isPlayAudio e)) = true :=
  capture_empty_label_no_effect (CDView.mk false "Red") initialState rfl

/-- Claim C5 (amended): in a cycle whose callback reads the currently
displayed label (view = viewOf s), a returned label equal to the displayed
one under case-insensitive comparison does not replace it, and a NON-EMPTY
returned label that differs case-insensitively does replace it.  (The
unamended claim also asserted replacement for the empty label, which the
code skips: see the counterexample.) -/
theorem capture_label_replacement (s : AppState) (color : String)
    (hL : s.isLoading = false) :
    (jsToLower color = jsToLower s.detectedColor →
      (captureAndDetect (viewOf s) true true (Except.ok color) s).1.detectedColor
        = s.detectedColor)
    ∧ (color ≠ "" → jsToLower color ≠ jsToLower s.detectedColor →
      (captureAndDetect (viewOf s) true true (Except.ok color) s).1.detectedColor
        = color) := by
  constructor
  · intro heq
    simp [captureAndDetect, captureBegin, captureResume, viewOf, hL, heq]
  · intro hne hneq
    have hcs : color ≠ s.detectedColor := by
      intro hcontra
      exact hneq (by rw [hcontra])
    by_cases hurl : ttsUrl color = s.audioUrl <;>
      simp [captureAndDetect, captureBegin, captureResume, applyDetectedColor,
            speak, viewOf, hL, hne, hneq, hcs, hurl]

/-- Witness for the amended claim C5: with "Blue" displayed, the label
"BLUE" (equal case-insensitively) does not replace it, while "Green" does. -/
theorem capture_label_replacement_witness :
    (captureAndDetect (viewOf exBlueState) true true (Except.ok "BLUE") exBlueState).1.detectedColor
        = exBlueState.detectedColor
    ∧ (captureAndDetect (viewOf exBlueState) true true (Except.ok "Green") exBlueState).1.detectedColor
        = "Green" :=
  ⟨(capture_label_replacement exBlueState "BLUE" rfl).1 (by decide),
   (capture_label_replacement exBlueState "Green" rfl).2 (by decide)
     (by decide)⟩

/-- Claim C5 counterexample: with "Red" displayed, a cycle resolving with
the empty label (a possible sanitizer output, for instance for the response
".") leaves "Red" in place even though the empty string differs from "Red"
case-insensitively, so the claimed replacement for every differing label
fails. -/
theorem capture_label_replacement_cex :
    (captureAndDetect (viewOf exViewState) true true (Except.ok "") exViewState).1.detectedColor
        = "Red"
    ∧ jsToLower "" ≠ jsToLower "Red" := by
  decide

/-- statusTrace distributes over concatenation. -/
theorem statusTrace_append (l1 l2 : List Event) :
    statusTrace (l1 ++ l2) = statusTrace l1 ++ statusTrace l2 := by
  simp [statusTrace]

/-- stopCameraStream publishes no status value. -/
theorem stopCameraStream_statusTrace (s : AppState) :
    statusTrace (stopCameraStream s).2 = [] :=
  release_statusTrace_nil _ (stopCameraStream_events_release s)

/-- Claim C7: activating with permission granted drives the status through
exactly the sequence Ready, Initializing, Detecting: from a Ready state the
status values the activation publishes are precisely Initializing then
Detecting, and the session ends in the Detecting status. -/
theorem activate_status_sequence (s : AppState) (stream : MediaStream)
    (tid : Nat) (h : s.status = Status.Ready) :
    s.status :: statusTrace (activateSession true (Except.ok stream) tid s).2
      = [Status.Ready, Status.Initializing, Status.Detecting]
    ∧ (activateSession true (Except.ok stream) tid s).1.status
        = Status.Detecting := by
  have hclear := stopCameraStream_cleared
    (stopCameraStream { s with isCameraOn := true, detectedColor := "" }).1
    (stopCameraStream_srcObject _) (stopCameraStream_interval _)
  refine ⟨?_, ?_⟩
  · have hs0 := stopCameraStream_statusTrace
      { s with isCameraOn := true, detectedColor := "" }
    rw [h]
    simp only [activateSession, startCamera, hclear]
    rw [statusTrace_append, hs0]
    rfl
  · simp [activateSession, startCamera, hclear]

/-- Witness for claim C7 from the initial Ready state. -/
theorem activate_status_sequence_witness :
    initialState.status
        :: statusTrace (activateSession true (Except.ok demoStream) 1 initialState).2
      = [Status.Ready, Status.Initializing, Status.Detecting]
    ∧ (activateSession true (Except.ok demoStream) 1 initialState).1.status
        = Status.Detecting :=
  activate_status_sequence initialState demoStream 1 rfl

/-- takeWhile passes over a prefix whose members all satisfy the predicate. -/
theorem takeWhile_append_all {α : Type} (p : α → Bool) (l1 l2 : List α)
    (h : l1.all p = true) :
    (l1 ++ l2).takeWhile p = l1 ++ l2.takeWhile p := by
  induction l1 with
  | nil => rfl
  | cons a t ih =>
      simp only [List.all_cons, Bool.and_eq_true] at h
      simp [List.takeWhile_cons, h.1, ih h.2]

/-- A trace contains any of its members. -/
theorem hasEvent_of_mem (tr : List Event) (e : Event) (h : e ∈ tr) :
    hasEvent tr e = true := by
  rw [hasEvent, List.any_eq_true]
  exact ⟨e, h, by simp⟩

/-- The trace of a facing mode switch on a running session: every track of
the attached stream is stopped and the interval cleared first, then the
camera start publishes Initializing and requests a stream with the toggled
facing mode. -/
theorem switchCamera_trace (s : AppState) (stream : MediaStream)
    (tid newTid : Nat) (gum : Except Unit MediaStream)
    (hOn : s.isCameraOn = true) (hS : s.srcObject = some stream)
    (hT : s.detectionInterval = some tid) :
    (switchCamera true gum newTid s).2
      = (stream.tracks.map (fun (t : MediaTrack) => Event.trackStop t.id)
          ++ [Event.clearTimer tid])
        ++ (Event.setStatus Status.Initializing
            :: Event.getUserMedia (toggleFacing s.facingMode)
            :: match gum with
               | Except.ok _ =>
                   [Event.setStatus Status.Detecting, Event.setTimer newTid]
               | Except.error _ => [Event.setStatus Status.Error]) := by
  cases gum <;> simp [switchCamera, startCamera, stopCameraStream, hOn, hS, hT]

/-- The trace of a deactivation on a running session: every track of the
attached stream is stopped, the interval cleared, and the Stopped status
published. -/
theorem deactivate_trace (s : AppState) (stream : MediaStream) (tid : Nat)
    (hS : s.srcObject = some stream) (hT : s.detectionInterval = some tid) :
    (deactivateSession s).2
      = (stream.tracks.map (fun (t : MediaTrack) => Event.trackStop t.id)
          ++ [Event.clearTimer tid]) ++ [Event.setStatus Status.Stopped] := by
  simp [deactivateSession, stopCameraStream, hS, hT]

/-- Claim C6: switching the facing mode while the camera is on stops every
track of the previous stream and clears the recurring timer strictly before
the stream request carrying the toggled facing value; and deactivating the
session stops every track and clears the timer while requesting no stream
at all. -/
theorem release_before_new_request (s : AppState) (stream : MediaStream)
    (tid newTid : Nat) (gum : Except Unit MediaStream)
    (hOn : s.isCameraOn = true) (hS : s.srcObject = some stream)
    (hT : s.detectionInterval = some tid) :
    (hasEvent (switchCamera true gum newTid s).2
        (Event.getUserMedia (toggleFacing s.facingMode)) = true
      ∧ stream.tracks.all (fun t =>
          hasEvent (preRequest (switchCamera true gum newTid s).2)
            (Event.trackStop t.id)) = true
      ∧ hasEvent (preRequest (switchCamera true gum newTid s).2)
          (Event.clearTimer tid) = true)
    ∧ (stream.tracks.all (fun t =>
          hasEvent (deactivateSession s).2 (Event.trackStop t.id)) = true
        ∧ hasEvent (deactivateSession s).2 (Event.clearTimer tid) = true
        ∧ (deactivateSession s).2.all (fun e => !(isGetUserMedia e))
            = true) := by
  have hall1 : ((stream.tracks.map
        (fun (t : MediaTrack) => Event.trackStop t.id))
      ++ [Event.clearTimer tid]).all (fun e => !(isGetUserMedia e)) = true :=
    all_append_concrete _ _ _
      (release_not_getUserMedia _ (trackStops_release _)) rfl
  have htr := switchCamera_trace s stream tid newTid gum hOn hS hT
  have hpre : preRequest (switchCamera true gum newTid s).2
      = ((stream.tracks.map (fun (t : MediaTrack) => Event.trackStop t.id))
          ++ [Event.clearTimer tid])
        ++ [Event.setStatus Status.Initializing] := by
    simp only [preRequest]
    rw [htr, takeWhile_append_all _ _ _ hall1]
    cases gum <;> simp [List.takeWhile_cons, isGetUserMedia]
  have hdtr := deactivate_trace s stream tid hS hT
  refine ⟨⟨?_, ?_, ?_⟩, ?_, ?_, ?_⟩
  · rw [htr]
    exact hasEvent_of_mem _ _
      (List.mem_append_right _
        (List.mem_cons_of_mem _ (List.mem_cons_self _ _)))
  · rw [List.all_eq_true]
    intro t ht
    rw [hpre]
    exact hasEvent_of_mem _ _
      (List.mem_append_left _
        (List.mem_append_left _ (List.mem_map_of_mem _ ht)))
  · rw [hpre]
    exact hasEvent_of_mem _ _
      (List.mem_append_left _
        (List.mem_append_right _ (List.mem_singleton_self _)))
  · rw [List.all_eq_true]
    intro t ht
    rw [hdtr]
    exact hasEvent_of_mem _ _
      (List.mem_append_left _
        (List.mem_append_left _ (List.mem_map_of_mem _ ht)))
  · rw [hdtr]
    exact hasEvent_of_mem _ _
      (List.mem_append_left _
        (List.mem_append_right _ (List.mem_singleton_self _)))
  · rw [hdtr]
    exact all_append_concrete _ _ _ hall1 rfl

/-- Witness for claim C6 on a running two-track session, switching to a
stream with one fresh track and also deactivating. -/
theorem release_before_new_request_witness :
    (hasEvent (switchCamera true (Except.ok demoStream2) 7 demoOnState).2
        (Event.getUserMedia (toggleFacing demoOnState.facingMode)) = true
      ∧ demoStream.tracks.all (fun t =>
          hasEvent (preRequest (switchCamera true (Except.ok demoStream2) 7 demoOnState).2)
            (Event.trackStop t.id)) = true
      ∧ hasEvent (preRequest (switchCamera true (Except.ok demoStream2) 7 demoOnState).2)
          (Event.clearTimer 5) = true)
    ∧ (demoStream.tracks.all (fun t =>
          hasEvent (deactivateSession demoOnState).2 (Event.trackStop t.id)) = true
        ∧ hasEvent (deactivateSession demoOnState).2 (Event.clearTimer 5) = true
        ∧ (deactivateSession demoOnState).2.all (fun e => !(isGetUserMedia e))
            = true) :=
  release_before_new_request demoOnState demoStream 5 7 (Except.ok demoStream2)
    rfl rfl rfl

end ColorDetector
